import Mathlib

/-!
Verification development for the knowledge-graph prototype
(`knowledge_graph/prototype.py`).

The development shallowly embeds the `InMemoryKnowledgeGraph` backend and the
`ScenarioRunner` ingestion loop:

* Python floats become real numbers (`ℝ`);
* Python `dict` (insertion ordered) becomes an association list with
  update-in-place-or-append semantics (`dictSet`);
* Python `set` (of string ids) becomes an insertion-ordered duplicate-free
  list (`setInsert`); Python leaves set iteration order unspecified, the
  model refines it to insertion order;
* `datetime` values become integer timestamps in seconds; `timedelta(days=d)`
  is `d * 86400` and `datetime.date()` is division by `86400`;
* `list.sort(key=..., reverse=True)` — a stable descending sort — becomes the
  stable insertion sort `sortBy` with the corresponding total preorder;
* code that can raise (`self.articles[key]` lookups, the embedding provider)
  returns `Option`.
-/

/-- Mirrors the Python dataclass `EntityRef` (fields `name`, `type`). -/
structure EntityRef where
  name : String
  type : String
deriving Repr

/-- Mirrors the Python dataclass `ProjectRef` (fields `name`, `topics`,
`description`, where `description` may be `None`). -/
structure ProjectRef where
  name : String
  topics : List String
  description : Option String := none
deriving Repr

/-- Mirrors the Python dataclass `Article`.  `published_at` is an integer
timestamp in seconds. -/
structure Article where
  telegram_message_id : String
  title : String
  body : String
  telegram_url : String
  published_at : Int
  source_channel : String
  topics : List String := []
  entities : List EntityRef := []
  projects : List ProjectRef := []
deriving Repr

/-- The per-article record stored in `InMemoryKnowledgeGraph.articles`:
the dict built in `upsert_article` with keys `article`, `embedding`,
`topics`, `entities`, `projects`. -/
structure StoredRecord where
  article : Article
  embedding : List ℝ
  topics : List String
  entities : List String
  projects : List String

/-- A row returned by `find_similar_articles`. -/
structure MatchEntry where
  telegram_message_id : String
  title : String
  telegram_url : String
  score : ℝ

/-- A row returned by `weekly_digest`. -/
structure DigestEntry where
  day : Int
  title : String
  telegram_url : String
  topics : List String

/-- A row returned by `article_list_by_entity`. -/
structure EntityEntry where
  title : String
  telegram_url : String
  day : Int

/-- An element of `InMemoryKnowledgeGraph.similarity_edges`: the dict with
keys `source`, `target`, `score`, `timestamp` appended by
`create_similarity_links`. -/
structure SimilarityEdge where
  source : String
  target : String
  score : ℝ
  timestamp : Int

/-- The state of an `InMemoryKnowledgeGraph` instance: the fields set up in
`__init__`. -/
structure Store where
  embedding_dim : Nat
  articles : List (String × StoredRecord)
  topic_index : List (String × List String)
  entity_index : List (String × List String)
  project_topics : List (String × List String)
  project_articles : List (String × List String)
  similarity_edges : List SimilarityEdge

/-- A freshly constructed `InMemoryKnowledgeGraph(embedding_dim)`. -/
def emptyStore (dim : Nat) : Store :=
  { embedding_dim := dim, articles := [], topic_index := [], entity_index := []
    project_topics := [], project_articles := [], similarity_edges := [] }

/-- Python `d[k]` as a total lookup returning `Option` (a `KeyError` is
`none`). -/
def lookupDict {α : Type} : List (String × α) → String → Option α
  | [], _ => none
  | (k', v) :: rest, k => if k' = k then some v else lookupDict rest k

/-- Python `d[k] = v` on an insertion-ordered dict: replace in place when the
key is present, append otherwise. -/
def dictSet {α : Type} : List (String × α) → String → α → List (String × α)
  | [], k, v => [(k, v)]
  | (k', v') :: rest, k, v =>
      if k' = k then (k', v) :: rest else (k', v') :: dictSet rest k v

/-- Python `s.add(x)` on a set modelled as an insertion-ordered
duplicate-free list. -/
def setInsert (s : List String) (x : String) : List String :=
  if x ∈ s then s else s ++ [x]

/-- Python `defaultdict(set)[k].add(m)`: create the set on first access. -/
def indexAdd : List (String × List String) → String → String → List (String × List String)
  | [], k, m => [(k, [m])]
  | (k', s) :: rest, k, m =>
      if k' = k then (k', setInsert s m) :: rest else (k', s) :: indexAdd rest k m

/-- Code-point lexicographic comparison of character lists: the order Python
uses when comparing strings. -/
def charListLt : List Char → List Char → Bool
  | [], [] => false
  | [], _ :: _ => true
  | _ :: _, [] => false
  | c :: cs, d :: ds => if c < d then true else if d < c then false else charListLt cs ds

/-- Python string `<` (code-point lexicographic). -/
def strLt (a b : String) : Bool := charListLt a.data b.data

/-- Insert `x` into `l`, keeping every element `y` with `le y x` before `x`:
the insertion step of a stable sort. -/
def insertBy {α : Type} (le : α → α → Bool) (x : α) : List α → List α
  | [] => [x]
  | y :: ys => if le y x then y :: insertBy le x ys else x :: y :: ys

/-- Stable insertion sort: for a total preorder `le` this agrees with
Python's stable `list.sort`. -/
def sortBy {α : Type} (le : α → α → Bool) (l : List α) : List α :=
  l.foldl (fun acc x => insertBy le x acc) []

/-- `datetime.date()` modelled as whole days since the epoch. -/
def dateOf (t : Int) : Int := t / 86400

/-- The dot product `sum(a * b for a, b in zip(vec_a, vec_b))` from
`_cosine_similarity`. -/
def dotList (a b : List ℝ) : ℝ := ((a.zip b).map fun p => p.1 * p.2).sum

/-- The sum of squares under the square root in `_cosine_similarity`. -/
def sumSquares (l : List ℝ) : ℝ := (l.map fun x => x * x).sum

/-- `math.sqrt(sum(a * a for a in vec))` from `_cosine_similarity`. -/
noncomputable def normList (l : List ℝ) : ℝ := Real.sqrt (sumSquares l)

/-- `InMemoryKnowledgeGraph._cosine_similarity`: returns `0.0` when either
norm is falsy (equal to zero), else `dot / (norm_a * norm_b)`. -/
noncomputable def cosineSimilarity (vecA vecB : List ℝ) : ℝ :=
  if normList vecA = 0 ∨ normList vecB = 0 then 0
  else dotList vecA vecB / (normList vecA * normList vecB)

/-- The record stored by `upsert_article`. -/
def mkStoredRecord (a : Article) (e : List ℝ) : StoredRecord :=
  { article := a, embedding := e, topics := a.topics
    entities := a.entities.map fun x => x.name
    projects := a.projects.map fun p => p.name }

/-- `InMemoryKnowledgeGraph.upsert_article`: unconditional dict assignment
keyed by `telegram_message_id`; no dimension check is performed. -/
def upsertArticle (g : Store) (a : Article) (e : List ℝ) : Store :=
  { g with articles := dictSet g.articles a.telegram_message_id (mkStoredRecord a e) }

/-- `InMemoryKnowledgeGraph.attach_topics`: indexes `self.articles[...]`
(`none` models the `KeyError` when the article was never upserted), then
overwrites the stored topic list and registers the article under each
topic. -/
def attachTopics (g : Store) (a : Article) : Option Store :=
  match lookupDict g.articles a.telegram_message_id with
  | none => none
  | some stored =>
      let stored2 := { stored with topics := a.topics }
      let tIdx := a.topics.foldl
        (fun idx t => indexAdd idx t a.telegram_message_id) g.topic_index
      some { g with articles := dictSet g.articles a.telegram_message_id stored2
                    topic_index := tIdx }

/-- `InMemoryKnowledgeGraph.attach_entities`. -/
def attachEntities (g : Store) (a : Article) : Option Store :=
  match lookupDict g.articles a.telegram_message_id with
  | none => none
  | some stored =>
      let stored2 := { stored with entities := a.entities.map fun e => e.name }
      let eIdx := a.entities.foldl
        (fun idx e => indexAdd idx e.name a.telegram_message_id) g.entity_index
      some { g with articles := dictSet g.articles a.telegram_message_id stored2
                    entity_index := eIdx }

/-- `InMemoryKnowledgeGraph.attach_projects`: the single Python loop updates
the two independent dicts `project_topics` and `project_articles`; the model
folds over the projects once per dict, which yields the same final state. -/
def attachProjects (g : Store) (a : Article) : Option Store :=
  match lookupDict g.articles a.telegram_message_id with
  | none => none
  | some stored =>
      let stored2 := { stored with projects := a.projects.map fun p => p.name }
      let pt := a.projects.foldl
        (fun m p => dictSet m p.name p.topics) g.project_topics
      let pa := a.projects.foldl
        (fun m p => indexAdd m p.name a.telegram_message_id) g.project_articles
      some { g with articles := dictSet g.articles a.telegram_message_id stored2
                    project_topics := pt, project_articles := pa }

/-- The comparator realizing `results.sort(key=lambda r: r["score"],
reverse=True)`: `a` may precede `b` iff `b.score ≤ a.score`. -/
noncomputable def matchLe (a b : MatchEntry) : Bool := decide (b.score ≤ a.score)

/-- The loop body of `find_similar_articles` for one stored article: skip
the excluded id (`continue`), compute the cosine score, keep it only when
`score >= min_score`. -/
noncomputable def similarEntry (embedding : List ℝ) (tmid : String)
    (minScore : ℝ) (p : String × StoredRecord) : Option MatchEntry :=
  if p.1 = tmid then none
  else
    let score := cosineSimilarity embedding p.2.embedding
    if minScore ≤ score then
      some { telegram_message_id := p.1, title := p.2.article.title
             telegram_url := p.2.article.telegram_url, score := score }
    else none

/-- `InMemoryKnowledgeGraph.find_similar_articles`: scan every stored
article, skip the excluded id, keep scores `≥ min_score`, sort by descending
score (stable) and truncate to `limit`. -/
noncomputable def findSimilarArticles (g : Store) (embedding : List ℝ)
    (tmid : String) (limit : Nat) (minScore : ℝ) : List MatchEntry :=
  (sortBy matchLe (g.articles.filterMap (similarEntry embedding tmid minScore))).take limit

/-- `InMemoryKnowledgeGraph.create_similarity_links`: appends one edge per
match to `similarity_edges`; `timestamp` is the `datetime.utcnow()` value
computed once before the loop, passed explicitly. -/
def createSimilarityLinks (g : Store) (sourceId : String)
    (matchList : List MatchEntry) (timestamp : Int) : Store :=
  { g with similarity_edges := g.similarity_edges ++
      matchList.map fun m =>
        { source := sourceId, target := m.telegram_message_id
          score := m.score, timestamp := timestamp } }

/-- The comparator realizing `entries.sort(key=lambda r: (r["day"],
r["title"]), reverse=True)`: `a` may precede `b` iff the key of `a` is
lexicographically `≥` the key of `b` (day first, then Python string
order on the title). -/
def digestLe (a b : DigestEntry) : Bool :=
  decide (b.day < a.day) || (decide (a.day = b.day) && !(strLt a.title b.title))

/-- `InMemoryKnowledgeGraph.weekly_digest`: keep articles with
`published_at >= utcnow() - timedelta(days=days)`, then stable-sort by the
pair (day, title) in reverse. `now` is the `datetime.utcnow()` value. -/
def weeklyDigest (g : Store) (days : Int) (now : Int) : List DigestEntry :=
  let cutoff := now - days * 86400
  let entries := g.articles.filterMap fun p =>
    if cutoff ≤ p.2.article.published_at then
      some { day := dateOf p.2.article.published_at, title := p.2.article.title
             telegram_url := p.2.article.telegram_url, topics := p.2.topics }
    else none
  sortBy digestLe entries

/-- The comparator realizing `results.sort(key=lambda r: r["day"],
reverse=True)`: descending by day only. -/
def entityLe (a b : EntityEntry) : Bool := decide (b.day ≤ a.day)

/-- The collection loop of `article_list_by_entity`: each id is looked up
with `self.articles[article_id]` (a `KeyError` makes the whole call fail). -/
def entityEntries (g : Store) (cutoff : Int) : List String → Option (List EntityEntry)
  | [] => some []
  | id :: rest =>
      match lookupDict g.articles id with
      | none => none
      | some stored =>
          match entityEntries g cutoff rest with
          | none => none
          | some tail =>
              some (if cutoff ≤ stored.article.published_at then
                      { title := stored.article.title
                        telegram_url := stored.article.telegram_url
                        day := dateOf stored.article.published_at } :: tail
                    else tail)

/-- `InMemoryKnowledgeGraph.article_list_by_entity`: iterate the (insertion
ordered) entity index, keep articles inside the window, sort by day
descending only. -/
def articleListByEntity (g : Store) (entityName : String) (days : Int)
    (now : Int) : Option (List EntityEntry) :=
  let cutoff := now - days * 86400
  match entityEntries g cutoff ((lookupDict g.entity_index entityName).getD []) with
  | none => none
  | some results => some (sortBy entityLe results)

/-- One iteration of the `ScenarioRunner.run` ingestion loop for a single
article.  `embed` abstracts `self.embedding_service.embed` applied to the
chunked body (`none` models a raised provider error); the duplicate
threshold is the runner's `0.4` and the limit is the default `5`.  The
returned flag is `false` when an exception escaped, and the returned store
is the state at the moment the exception was raised. -/
noncomputable def ingestArticle (embed : Article → Option (List ℝ)) (now : Int)
    (g : Store) (a : Article) : Store × Bool :=
  match embed a with
  | none => (g, false)
  | some e =>
      let g1 := upsertArticle g a e
      match attachTopics g1 a with
      | none => (g1, false)
      | some g2 =>
          match attachEntities g2 a with
          | none => (g2, false)
          | some g3 =>
              match attachProjects g3 a with
              | none => (g3, false)
              | some g4 =>
                  let found :=
                    findSimilarArticles g4 e a.telegram_message_id 5 (2 / 5)
                  (if found.isEmpty then g4
                   else createSimilarityLinks g4 a.telegram_message_id found now,
                   true)

/-- The `for article in articles` loop of `ScenarioRunner.run`.  The loop
body contains no exception handler, so a failing iteration ends the loop
with the flag `false` and the remaining articles untouched. -/
noncomputable def ingestLoop (embed : Article → Option (List ℝ)) (now : Int) :
    List Article → Store → Store × Bool
  | [], g => (g, true)
  | a :: rest, g =>
      let r := ingestArticle embed now g a
      if r.2 then ingestLoop embed now rest r.1 else r

/-- Re-assigning the same key/value pair in a dict is idempotent. -/
theorem dictSet_dictSet {α : Type} (l : List (String × α)) (k : String) (v : α) :
    dictSet (dictSet l k v) k v = dictSet l k v := by
  induction l with
  | nil => simp [dictSet]
  | cons p rest ih =>
      obtain ⟨k2, v2⟩ := p
      by_cases h : k2 = k
      · simp [dictSet, h]
      · simp [dictSet, h, ih]

/-- Looking up the key just assigned returns the assigned value. -/
theorem lookupDict_dictSet_self {α : Type} (l : List (String × α)) (k : String) (v : α) :
    lookupDict (dictSet l k v) k = some v := by
  induction l with
  | nil => simp [dictSet, lookupDict]
  | cons p rest ih =>
      obtain ⟨k2, v2⟩ := p
      by_cases h : k2 = k
      · simp [dictSet, h, lookupDict]
      · simp [dictSet, h, lookupDict, ih]

/-- Inserting one element grows the length by one. -/
theorem length_insertBy {α : Type} (le : α → α → Bool) (x : α) (l : List α) :
    (insertBy le x l).length = l.length + 1 := by
  induction l with
  | nil => simp [insertBy]
  | cons y ys ih =>
      simp only [insertBy]
      split
      · simp [ih]
      · simp

/-- The insertion-sort fold preserves the total number of elements. -/
theorem length_sortBy_aux {α : Type} (le : α → α → Bool) (l : List α) :
    ∀ acc : List α,
      (l.foldl (fun acc x => insertBy le x acc) acc).length = acc.length + l.length := by
  induction l with
  | nil => intro acc; simp
  | cons x xs ih =>
      intro acc
      simp only [List.foldl_cons, List.length_cons]
      rw [ih, length_insertBy]
      omega

/-- Sorting preserves length. -/
theorem length_sortBy {α : Type} (le : α → α → Bool) (l : List α) :
    (sortBy le l).length = l.length := by
  simp [sortBy, length_sortBy_aux]

/-- Membership after an insertion step. -/
theorem mem_insertBy {α : Type} (le : α → α → Bool) (x a : α) (l : List α)
    (h : a ∈ insertBy le x l) : a = x ∨ a ∈ l := by
  induction l with
  | nil => simpa [insertBy] using h
  | cons y ys ih =>
      simp only [insertBy] at h
      by_cases hle : le y x
      · rw [if_pos hle] at h
        rcases List.mem_cons.mp h with h1 | h2
        · exact Or.inr (h1 ▸ List.mem_cons_self y ys)
        · rcases ih h2 with h3 | h4
          · exact Or.inl h3
          · exact Or.inr (List.mem_cons_of_mem y h4)
      · rw [if_neg hle] at h
        exact List.mem_cons.mp h

/-- Membership after the insertion-sort fold. -/
theorem mem_sortBy_aux {α : Type} (le : α → α → Bool) (l : List α) :
    ∀ acc a, a ∈ l.foldl (fun acc x => insertBy le x acc) acc → a ∈ acc ∨ a ∈ l := by
  induction l with
  | nil => intro acc a h; exact Or.inl (by simpa using h)
  | cons x xs ih =>
      intro acc a h
      simp only [List.foldl_cons] at h
      rcases ih _ a h with h1 | h2
      · rcases mem_insertBy le x a acc h1 with h3 | h4
        · exact Or.inr (h3 ▸ List.mem_cons_self x xs)
        · exact Or.inl h4
      · exact Or.inr (List.mem_cons_of_mem x h2)

/-- An element of the sorted list was an element of the input list. -/
theorem mem_of_mem_sortBy {α : Type} (le : α → α → Bool) (l : List α) (a : α)
    (h : a ∈ sortBy le l) : a ∈ l := by
  rcases mem_sortBy_aux le l [] a h with h1 | h2
  · simp at h1
  · exact h2

/-- If every element kept by `f` is also kept by `g`, then `filterMap f`
returns at most as many elements as `filterMap g`. -/
theorem length_filterMap_mono {α β : Type} {f g : α → Option β}
    (h : ∀ x, (f x).isSome = true → (g x).isSome = true) :
    ∀ l : List α, (l.filterMap f).length ≤ (l.filterMap g).length := by
  intro l
  induction l with
  | nil => simp
  | cons x xs ih =>
      cases hf : f x with
      | none =>
          cases hg : g x with
          | none => simpa [List.filterMap_cons, hf, hg] using ih
          | some c =>
              simp only [List.filterMap_cons, hf, hg, List.length_cons]
              exact le_trans ih (Nat.le_succ _)
      | some b =>
          have hgs := h x (by simp [hf])
          cases hg : g x with
          | none => rw [hg] at hgs; simp at hgs
          | some c =>
              simp only [List.filterMap_cons, hf, hg, List.length_cons]
              exact Nat.succ_le_succ ih

/-- Unfolding lemma for `sumSquares` on a cons. -/
theorem sumSquares_cons (x : ℝ) (xs : List ℝ) :
    sumSquares (x :: xs) = x * x + sumSquares xs := by
  simp [sumSquares]

/-- A sum of squares is nonnegative. -/
theorem sumSquares_nonneg (l : List ℝ) : 0 ≤ sumSquares l := by
  induction l with
  | nil => simp [sumSquares]
  | cons x xs ih =>
      rw [sumSquares_cons]
      exact add_nonneg (mul_self_nonneg x) ih

/-- A sum of squares vanishes exactly when every entry vanishes. -/
theorem sumSquares_eq_zero_iff (l : List ℝ) :
    sumSquares l = 0 ↔ ∀ x ∈ l, x = 0 := by
  induction l with
  | nil => simp [sumSquares]
  | cons x xs ih =>
      rw [sumSquares_cons,
        add_eq_zero_iff_of_nonneg (mul_self_nonneg x) (sumSquares_nonneg xs),
        mul_self_eq_zero, ih]
      simp [List.forall_mem_cons]

/-- The norm computed by `_cosine_similarity` vanishes exactly when the
vector has only zero entries (in particular for the empty vector). -/
theorem normList_eq_zero_iff (l : List ℝ) :
    normList l = 0 ↔ ∀ x ∈ l, x = 0 := by
  rw [normList, Real.sqrt_eq_zero']
  constructor
  · intro h
    exact (sumSquares_eq_zero_iff l).mp (le_antisymm h (sumSquares_nonneg l))
  · intro h
    rw [(sumSquares_eq_zero_iff l).mpr h]

/-- A lowered score threshold keeps every match the higher threshold keeps. -/
theorem similarEntry_isSome_mono {e : List ℝ} {tmid : String} {s1 s2 : ℝ}
    (h : s1 ≤ s2) (p : String × StoredRecord)
    (hp : (similarEntry e tmid s2 p).isSome = true) :
    (similarEntry e tmid s1 p).isSome = true := by
  simp only [similarEntry] at hp ⊢
  by_cases hid : p.1 = tmid
  · simp [hid] at hp
  · rw [if_neg hid] at hp ⊢
    by_cases hsc : s2 ≤ cosineSimilarity e p.2.embedding
    · simp [if_pos (le_trans h hsc)]
    · simp [hsc] at hp

/-- A synthetic article with the given identity, title and publication
timestamp and no attached lists. -/
def mkArticle (id title : String) (pub : Int) : Article :=
  { telegram_message_id := id, title := title, body := "", telegram_url := ""
    published_at := pub, source_channel := "" }

/-- A concrete match row pointing at article id `t` with score 1. -/
def matchT : MatchEntry :=
  { telegram_message_id := "t", title := "", telegram_url := "", score := 1 }

/-- Two articles published on the same day (timestamps 0 and 10). -/
def artA : Article := mkArticle "tg-a" "A" 0

/-- Second same-day article, titled later in alphabetical order. -/
def artB : Article := mkArticle "tg-b" "B" 10

/-- A store holding `artA` and `artB`. -/
def storeAB : Store := upsertArticle (upsertArticle (emptyStore 1) artA []) artB []

/-- A concrete article used against the dimension-3 store. -/
def artD : Article := mkArticle "tg-4" "D" 0

/-- An article whose topic/entity/project lists are all empty. -/
def artE : Article := mkArticle "tg-0" "E0" 0

/-- First article of the failing batch. -/
def artF : Article := mkArticle "tg-2" "F" 0

/-- Second article of the failing batch, never reached by the loop. -/
def artG : Article := mkArticle "tg-3" "G" 0

/-- An embedding provider that raises exactly on article `tg-2`. -/
def embedSkip : Article → Option (List ℝ) :=
  fun a => if a.telegram_message_id = "tg-2" then none else some [1]

/-- Article mentioning entity `E`, published at timestamp 100 (day 0). -/
def artH : Article :=
  { mkArticle "tg-1" "H1" 100 with entities := [{ name := "E", type := "Org" }] }

/-- Article mentioning entity `E`, published later the same day
(timestamp 200, day 0). -/
def artI : Article :=
  { mkArticle "tg-2" "H2" 200 with entities := [{ name := "E", type := "Org" }] }

/-- The store after ingesting `artH` (upsert + attach entities). -/
def storeH : Store :=
  (attachEntities (upsertArticle (emptyStore 1) artH [1]) artH).getD (emptyStore 1)

/-- The store after also ingesting `artI`. -/
def storeHI : Store :=
  (attachEntities (upsertArticle storeH artI [1]) artI).getD (emptyStore 1)

/-- C1: the claim fails on the in-memory backend.  Invoking
`create_similarity_links` twice with the same source id `s` and the same
one-element match list leaves two `SIMILAR_TO` edges for the pair (s, t);
the method appends unconditionally instead of upserting the edge, so the
second invocation duplicates the edge rather than updating its
score/timestamp. -/
theorem create_similarity_links_duplicates_edges :
    ((createSimilarityLinks
        (createSimilarityLinks (emptyStore 1) "s" [matchT] 100)
        "s" [matchT] 200).similarity_edges.map fun e => (e.source, e.target)) =
      [("s", "t"), ("s", "t")] := rfl

/-- C2: the claim fails on the in-memory backend.  Two articles published on
the same day with titles `A` and `B` come back from `weekly_digest` as
`[B, A]`: `sort(key=(day, title), reverse=True)` orders titles descending
within a day, while the claim (and the Cypher `ORDER BY day DESC, title
ASC`) requires ascending titles, i.e. `[A, B]`. -/
theorem weekly_digest_sorts_titles_descending :
    (weeklyDigest storeAB 7 100).map (fun e => e.title) = ["B", "A"] := rfl

/-- C3: `find_similar_articles` never returns a match carrying the excluded
`telegram_message_id`, for every store state, query embedding, limit and
threshold — in particular even when the excluded article is stored with an
embedding identical to the query vector. -/
theorem find_similar_articles_excludes_self (g : Store) (e : List ℝ)
    (exId : String) (limit : Nat) (minScore : ℝ) :
    (findSimilarArticles g e exId limit minScore).all
      (fun m => m.telegram_message_id != exId) = true := by
  rw [List.all_eq_true]
  intro m hm
  rw [bne_iff_ne]
  intro hEq
  simp only [findSimilarArticles] at hm
  have h1 : m ∈ sortBy matchLe
      (g.articles.filterMap (similarEntry e exId minScore)) :=
    List.take_subset _ _ hm
  have h2 := mem_of_mem_sortBy _ _ _ h1
  rw [List.mem_filterMap] at h2
  obtain ⟨p, _, hsome⟩ := h2
  simp only [similarEntry] at hsome
  by_cases hid : p.1 = exId
  · rw [if_pos hid] at hsome
    exact Option.noConfusion hsome
  · rw [if_neg hid] at hsome
    by_cases hsc : minScore ≤ cosineSimilarity e p.2.embedding
    · rw [if_pos hsc] at hsome
      injection hsome with hmk
      rw [← hmk] at hEq
      exact hid hEq
    · rw [if_neg hsc] at hsome
      exact Option.noConfusion hsome

/-- C4 counterexample: the claim fails on the code.  Against a store
configured with `embedding_dim = 3`, `upsert_article` silently stores an
article with a length-2 embedding: the lookup afterwards succeeds, and no
failure of any kind occurs (the operation is total). -/
theorem upsert_dim_mismatch_cx :
    (lookupDict (upsertArticle (emptyStore 3) artD [1, 1]).articles
        "tg-4").isSome = true ∧
      ([(1 : ℝ), 1].length = 2 ∧ (emptyStore 3).embedding_dim = 3) :=
  ⟨rfl, rfl, rfl⟩

/-- C4 amended: `upsert_article` performs no dimension check — for every
store, article and embedding whose length differs from the configured
`embedding_dim`, the article is silently stored together with that
embedding and no failure is raised. -/
theorem upsert_article_stores_despite_dim_mismatch (g : Store) (a : Article)
    (e : List ℝ) (h : e.length ≠ g.embedding_dim) :
    lookupDict (upsertArticle g a e).articles a.telegram_message_id =
      some (mkStoredRecord a e) := by
  simp only [upsertArticle]
  exact lookupDict_dictSet_self g.articles a.telegram_message_id (mkStoredRecord a e)

/-- C4 witness: the amended statement applied to the dimension-3 store and a
length-2 embedding. -/
theorem upsert_article_stores_despite_dim_mismatch_witness :
    lookupDict (upsertArticle (emptyStore 3) artD [1, 1]).articles
        artD.telegram_message_id = some (mkStoredRecord artD [1, 1]) :=
  upsert_article_stores_despite_dim_mismatch (emptyStore 3) artD [1, 1]
    (by decide)

/-- C5: the claim fails on the in-memory backend.  With empty topic, entity
and project lists, calling `attach_topics` / `attach_entities` /
`attach_projects` on a store that does not hold the article raises a
`KeyError` (the unguarded `self.articles[...]` lookup, modelled as `none`)
instead of being a silent no-op. -/
theorem attach_empty_lists_raise_on_missing_article :
    attachTopics (emptyStore 1) artE = none ∧
      attachEntities (emptyStore 1) artE = none ∧
        attachProjects (emptyStore 1) artE = none :=
  ⟨rfl, rfl, rfl⟩

/-- C6 counterexample: the claim fails on the code.  With an embedding
provider that raises on the first article of the batch `[artF, artG]`, the
`ScenarioRunner.run` loop terminates with the failure flag set and the
remaining article `tg-3` was never ingested — the loop body has no
exception handler, so nothing is caught and the batch is not continued. -/
theorem ingest_loop_aborts_batch_cx :
    (ingestLoop embedSkip 0 [artF, artG] (emptyStore 1)).2 = false ∧
      lookupDict (ingestLoop embedSkip 0 [artF, artG] (emptyStore 1)).1.articles
        "tg-3" = none :=
  ⟨rfl, rfl⟩

/-- C6 amended: a per-article embedding failure is not caught — the
exception propagates out of the ingestion loop immediately, so the failing
article and every remaining article of the batch are left unprocessed and
the store keeps the state it had before the failing iteration. -/
theorem ingest_loop_stops_at_first_embed_failure
    (embed : Article → Option (List ℝ)) (now : Int) (a : Article)
    (rest : List Article) (g : Store) (h : embed a = none) :
    ingestLoop embed now (a :: rest) g = (g, false) := by
  simp [ingestLoop, ingestArticle, h]

/-- C6 witness: the amended statement applied to the concrete failing
batch. -/
theorem ingest_loop_stops_at_first_embed_failure_witness :
    ingestLoop embedSkip 0 [artF, artG] (emptyStore 1) = (emptyStore 1, false) :=
  ingest_loop_stops_at_first_embed_failure embedSkip 0 artF [artG]
    (emptyStore 1) rfl

/-- C7: threshold monotonicity of `find_similar_articles` — for a fixed
store, query embedding, excluded id and limit, raising `min_score` from
`s1` to `s2 ≥ s1` never increases the number of returned matches. -/
theorem find_similar_articles_threshold_monotone (g : Store) (e : List ℝ)
    (exId : String) (limit : Nat) (s1 s2 : ℝ) (h : s1 ≤ s2) :
    (findSimilarArticles g e exId limit s2).length ≤
      (findSimilarArticles g e exId limit s1).length := by
  simp only [findSimilarArticles]
  rw [List.length_take, List.length_take, length_sortBy, length_sortBy]
  exact min_le_min (le_refl limit)
    (length_filterMap_mono (similarEntry_isSome_mono h) g.articles)

/-- C7 witness: the monotonicity theorem applied at thresholds 0 and 1 on a
concrete store. -/
theorem find_similar_articles_threshold_monotone_witness :
    (findSimilarArticles (emptyStore 1) [] "x" 5 1).length ≤
      (findSimilarArticles (emptyStore 1) [] "x" 5 0).length :=
  find_similar_articles_threshold_monotone (emptyStore 1) [] "x" 5 0 1
    zero_le_one

/-- C8: upsert idempotence — calling `upsert_article` twice with the
identical article and identical embedding yields a store state equal, field
by field, to the state after a single call. -/
theorem upsert_article_idempotent (g : Store) (a : Article) (e : List ℝ) :
    upsertArticle (upsertArticle g a e) a e = upsertArticle g a e := by
  cases g
  simp [upsertArticle, dictSet_dictSet]

/-- C9: the claim fails on the in-memory backend.  `artH` and `artI` both
mention entity `E` and are published on the same day, `artI` later
(timestamp 200 vs 100); `article_list_by_entity` sorts only by the date
(`key=r["day"]`), so the earlier-published `H1` comes back first, where the
claim requires the later publication timestamp `H2` first. -/
theorem article_list_by_entity_ignores_time_within_day :
    artH.published_at < artI.published_at ∧
      dateOf artH.published_at = dateOf artI.published_at ∧
        (articleListByEntity storeHI "E" 14 1000).map
            (fun l => l.map fun e => e.title) = some ["H1", "H2"] :=
  ⟨by decide, rfl, rfl⟩

/-- C10: `_cosine_similarity` is total and guarded — whenever either vector
has zero norm (all entries zero, in particular the empty vector) it returns
exactly 0, and otherwise it returns `dot / (norm_a * norm_b)`; division by
zero is therefore never reached, so `find_similar_articles` cannot fail on
a zero or empty stored embedding. -/
theorem cosine_similarity_zero_norm_guard (a b : List ℝ) :
    (((∀ x ∈ a, x = 0) ∨ (∀ x ∈ b, x = 0)) → cosineSimilarity a b = 0) ∧
      ((∃ x ∈ a, x ≠ 0) → (∃ x ∈ b, x ≠ 0) →
        cosineSimilarity a b = dotList a b / (normList a * normList b)) := by
  constructor
  · intro h
    rw [cosineSimilarity, if_pos]
    rcases h with h | h
    · exact Or.inl ((normList_eq_zero_iff a).mpr h)
    · exact Or.inr ((normList_eq_zero_iff b).mpr h)
  · rintro ⟨x, hxa, hx⟩ ⟨y, hyb, hy⟩
    have hna : normList a ≠ 0 :=
      fun h0 => hx ((normList_eq_zero_iff a).mp h0 x hxa)
    have hnb : normList b ≠ 0 :=
      fun h0 => hy ((normList_eq_zero_iff b).mp h0 y hyb)
    rw [cosineSimilarity, if_neg (not_or.mpr ⟨hna, hnb⟩)]

/-- C10 witness: the guard applied to the zero vector against a nonzero
vector. -/
theorem cosine_similarity_zero_norm_guard_witness :
    cosineSimilarity [(0 : ℝ)] [1] = 0 :=
  (cosine_similarity_zero_norm_guard [0] [1]).1 (Or.inl (by simp))
